import Mathlib

/-!
Verification of the Vivid inference-rule layer (src/vivid/classes/inference_rules.py)
and the Vocabulary container (src/vivid/Classes/Vocabulary.py) against the
repository's specification.  The semantic engine (Context, NamedState, State,
Formula evaluation) is not among the provided source files; its operations are
abstracted as function-valued fields of `SemanticOps`, modelled from the spec,
while every rule of the inference layer is translated line by line from the
source.
-/

namespace Vivid

/-- Three-valued truth values of the formula evaluator.  Modelled from the
spec: evaluation yields true, false, or an indeterminate value "represented
distinctly from both true and false" (spec section 4.2). -/
inductive TruthValue where
  | tv_true
  | tv_false
  | unknown
deriving DecidableEq

/-- Python truthiness of an evaluator result.  Modelled from the spec: the
indeterminate result is a sentinel distinct from True and False, hence a
truthy object in a Python boolean position.  The source is consistent with
this: it tests exact truth with an identity test (`F1_holds is not True`,
inference_rules.py line 229) but plain truthiness two lines below
(`if F1_holds and not G_holds`, line 236), a distinction that is only
meaningful when the third value is truthy. -/
def TruthValue.truthy : TruthValue → Bool
  | .tv_false => false
  | _ => true

/-- Error kinds raised by the translated code: Python TypeError / ValueError
(the latter doubling as KeyError is not needed by the claims). -/
inductive VividError where
  | typeError (msg : String)
  | valueError (msg : String)
deriving DecidableEq

/-- Identifier of an AttributeInterpretation object (consumed opaquely by the
rule layer). -/
abbrev Interp := Nat

/-- Identifier of a VariableAssignment object (consumed opaquely by the rule
layer). -/
abbrev VariableAssignment := Nat

/-- Identifier of a World object (consumed opaquely by the rule layer). -/
abbrev World := Nat

/-- Identifier of a basis as returned by Formula.get_basis (consumed opaquely
by the rule layer). -/
abbrev Basis := Nat

/-- ConstantAssignment: the rule layer only reads its `_vocabulary` member
(inference_rules.py lines 218, 305); everything else is opaque. -/
structure ConstantAssignment where
  vocabulary : Nat
  ca_id : Nat
deriving DecidableEq

/-- NamedState: the rule layer reads `_p` (the ConstantAssignment) and
`_attribute_system`; the state component is opaque. -/
structure NamedState where
  p : ConstantAssignment
  attribute_system : Nat
  state_id : Nat
deriving DecidableEq

/-- Formula: opaque to the rule layer except for its vocabulary and identity
(used for assumption-base membership and deduplication). -/
structure Formula where
  vocabulary : Nat
  formula_id : Nat
deriving DecidableEq

/-- AssumptionBase: an ordered collection of formulas sharing a vocabulary
(spec section 3); the rule layer reads `_formulae` and `_vocabulary`. -/
structure AssumptionBase where
  vocabulary : Nat
  formulae : List Formula
deriving DecidableEq

/-- Context: an AssumptionBase paired with a NamedState
(`(beta;(sigma;rho))`, spec section 3). -/
structure Context where
  assumption_base : AssumptionBase
  named_state : NamedState
deriving DecidableEq

/-- Modelled from the spec: `AssumptionBase(*formulae)` builds the
deduplicated ordered collection of the given formulas over their common
vocabulary (spec section 3: "a deduplicated, vocabulary-consistent ordered
collection of Formulas"). -/
def mkAssumptionBase (formulae : List Formula) : AssumptionBase :=
  ⟨((formulae.head?.map Formula.vocabulary).getD 0), formulae.dedup⟩

/-- Modelled from the spec: `AssumptionBase(vocabulary)` builds the empty
collection over the given vocabulary (the only collection constructible from
a vocabulary alone). -/
def emptyAssumptionBase (vocabulary : Nat) : AssumptionBase :=
  ⟨vocabulary, []⟩

/-- Modelled from the spec: `Formula + AssumptionBase` adjoins the formula to
the ordered collection; the rule layer only takes this path after checking
the formula is absent (inference_rules.py lines 319-327). -/
def formula_add (F : Formula) (ab : AssumptionBase) : AssumptionBase :=
  ⟨ab.vocabulary, F :: ab.formulae⟩

/-- Modelled from the spec: the operations of the entailment engine
(spec sections 4.1-4.3) whose implementing modules (context.py,
named_state.py, formula.py, state.py) are not among the provided sources.
The rule layer only composes these operations, so they are abstracted as
total function-valued fields; spec section 7 states all of them are pure and
total over well-formed inputs. -/
structure SemanticOps where
  le : NamedState → NamedState → Bool
  entails_named_state : Context → NamedState → Option Interp → Bool
  entails_formula : Context → Formula → Option Interp → Bool
  is_named_entailment :
    NamedState → AssumptionBase → Option Interp → List NamedState → Bool
  is_exhaustive : NamedState → Basis → List NamedState → Bool
  get_basis :
    ConstantAssignment → VariableAssignment → Option Interp → List Formula → Basis
  assign_truth_value :
    Formula → Option Interp → NamedState → VariableAssignment → TruthValue
  get_worlds : NamedState → List World
  generate_variable_assignments : World → List VariableAssignment
  satisfies_context : World → Context → VariableAssignment → Option Interp → Bool
  dummy_va : Nat → Nat → VariableAssignment

/-- A dynamically typed argument, as screened by the source's
`hasattr(x, "_is_Context")` / `hasattr(x, "_is_NamedState")` marker-attribute
checks (only the respective classes carry those markers). -/
inductive PyObj where
  | context (c : Context)
  | namedState (n : NamedState)
  | other (tag : Nat)
deriving DecidableEq

/-- The source's `hasattr(x, "_is_Context")` duck-type test. -/
def hasattr_is_Context : PyObj → Bool
  | .context _ => true
  | _ => false

/-- The source's `hasattr(x, "_is_NamedState")` duck-type test. -/
def hasattr_is_NamedState : PyObj → Bool
  | .namedState _ => true
  | _ => false

/-- thinning (inference_rules.py lines 10-69): after the two duck-type
checks, with no assumption base the result is the plain extension test
`named_state <= context._named_state`; with an assumption base it is
`context._named_state.is_named_entailment(assumption_base,
attribute_interpretation, named_state)`. -/
def thinning (ops : SemanticOps) (context named_state : PyObj)
    (assumption_base : Option AssumptionBase)
    (attribute_interpretation : Option Interp) : Except VividError Bool :=
  match context with
  | .context c =>
    match named_state with
    | .namedState ns =>
      match assumption_base with
      | none => .ok (ops.le ns c.named_state)
      | some ab =>
        .ok (ops.is_named_entailment c.named_state ab attribute_interpretation [ns])
    | _ => .error (.typeError "named_state parameter must be a NamedState object.")
  | _ => .error (.typeError "context parameter must be a Context object.")

/-- widening (inference_rules.py lines 72-110): after the duck-type checks,
when an interpretation is supplied the source evaluates
`context.entails_named_state(named_state, attribute_interpretation)` and
discards the result (line 108); the returned value is always
`context._named_state <= named_state` (line 110). -/
def widening (ops : SemanticOps) (context named_state : PyObj)
    (attribute_interpretation : Option Interp) : Except VividError Bool :=
  match context with
  | .context c =>
    match named_state with
    | .namedState ns =>
      match attribute_interpretation with
      | some i =>
        let _ := ops.entails_named_state c ns (some i)
        .ok (ops.le c.named_state ns)
      | none => .ok (ops.le c.named_state ns)
    | _ => .error (.typeError "named_state parameter must be a NamedState object.")
  | _ => .error (.typeError "context parameter must be a Context object.")

/-- diagrammatic_absurdity (inference_rules.py lines 139-189): after the
duck-type checks, the result is exactly
`context.entails_named_state(named_state, attribute_interpretation)`. -/
def diagrammatic_absurdity (ops : SemanticOps) (context named_state : PyObj)
    (attribute_interpretation : Option Interp) : Except VividError Bool :=
  match context with
  | .context c =>
    match named_state with
    | .namedState ns =>
      .ok (ops.entails_named_state c ns attribute_interpretation)
    | _ => .error (.typeError "named_state parameter must be a NamedState object.")
  | _ => .error (.typeError "context parameter must be a Context object.")

/-- diagram_reiteration (inference_rules.py lines 192-206): returns
`context._named_state`. -/
def diagram_reiteration (context : Context) : NamedState :=
  context.named_state

/-- Resolution of the optional variable assignment used by the sentential
rules (inference_rules.py lines 216-219 and 303-306): when none is supplied,
a dummy VariableAssignment over the context's vocabulary and attribute
system is constructed. -/
def resolve_va (ops : SemanticOps) (context : Context)
    (variable_assignment : Option VariableAssignment) : VariableAssignment :=
  variable_assignment.getD
    (ops.dummy_va context.named_state.p.vocabulary context.named_state.attribute_system)

/-- sentential_to_sentential (inference_rules.py lines 209-242): evaluates F1
and F2 in the context's named state, raises ValueError when neither is
exactly true, then returns False when a truthy disjunct meets a non-truthy
G, and True otherwise. -/
def sentential_to_sentential (ops : SemanticOps) (context : Context)
    (F1 F2 G : Formula) (attribute_interpretation : Option Interp)
    (variable_assignment : Option VariableAssignment) : Except VividError Bool :=
  let X := resolve_va ops context variable_assignment
  let F1_holds :=
    ops.assign_truth_value F1 attribute_interpretation context.named_state X
  let F2_holds :=
    ops.assign_truth_value F2 attribute_interpretation context.named_state X
  if F1_holds ≠ TruthValue.tv_true ∧ F2_holds ≠ TruthValue.tv_true then
    .error (.valueError "disjunction F1 OR F2 does not hold")
  else
    let G_holds :=
      ops.assign_truth_value G attribute_interpretation context.named_state X
    if F1_holds.truthy ∧ G_holds.truthy = false then .ok false
    else if F2_holds.truthy ∧ G_holds.truthy = false then .ok false
    else .ok true

/-- Inner loop of sentential_to_diagrammatic (inference_rules.py lines
341-348): for each variable assignment of the world, return False as soon as
the world fails to satisfy one of the two extended contexts. -/
def s2d_inner (ops : SemanticOps) (world : World) (f1_context f2_context : Context)
    (attribute_interpretation : Option Interp) :
    List VariableAssignment → Bool
  | [] => true
  | X :: rest =>
    if ops.satisfies_context world f1_context X attribute_interpretation ∧
       ops.satisfies_context world f2_context X attribute_interpretation then
      s2d_inner ops world f1_context f2_context attribute_interpretation rest
    else false

/-- Outer loop of sentential_to_diagrammatic (inference_rules.py lines
340-349): iterate over the worlds of the target named state. -/
def s2d_outer (ops : SemanticOps) (f1_context f2_context : Context)
    (attribute_interpretation : Option Interp) : List World → Bool
  | [] => true
  | w :: rest =>
    if s2d_inner ops w f1_context f2_context attribute_interpretation
        (ops.generate_variable_assignments w) then
      s2d_outer ops f1_context f2_context attribute_interpretation rest
    else false

/-- sentential_to_diagrammatic (inference_rules.py lines 293-349): same
disjunction gate as sentential_to_sentential, then every world of the target
named state, under every variable assignment generated over it, must satisfy
both the context extended with F1 and the context extended with F2. -/
def sentential_to_diagrammatic (ops : SemanticOps) (context : Context)
    (F1 F2 : Formula) (named_state : NamedState)
    (attribute_interpretation : Option Interp)
    (variable_assignment : Option VariableAssignment) : Except VividError Bool :=
  let X := resolve_va ops context variable_assignment
  let F1_holds :=
    ops.assign_truth_value F1 attribute_interpretation context.named_state X
  let F2_holds :=
    ops.assign_truth_value F2 attribute_interpretation context.named_state X
  if F1_holds ≠ TruthValue.tv_true ∧ F2_holds ≠ TruthValue.tv_true then
    .error (.valueError "disjunction F1 OR F2 does not hold")
  else
    let f1_assumption_base :=
      if F1 ∈ context.assumption_base.formulae then context.assumption_base
      else formula_add F1 context.assumption_base
    let f2_assumption_base :=
      if F2 ∈ context.assumption_base.formulae then context.assumption_base
      else formula_add F2 context.assumption_base
    let f1_context : Context := ⟨f1_assumption_base, context.named_state⟩
    let f2_context : Context := ⟨f2_assumption_base, context.named_state⟩
    .ok (s2d_outer ops f1_context f2_context attribute_interpretation
      (ops.get_worlds named_state))

/-- Shared first phase of rules [C1] and [C3] (inference_rules.py lines
257-268 and 364-375): with formulas supplied, compute the basis, fail unless
the named states are exhaustive on it, and build the assumption base from
the formulas; with no formulas, build the empty assumption base over the
context's vocabulary. -/
def d2x_base (ops : SemanticOps) (context : Context)
    (named_states : List NamedState)
    (attribute_interpretation : Option Interp)
    (variable_assignment : VariableAssignment)
    (formulae : List Formula) : Except VividError AssumptionBase :=
  if formulae.isEmpty then
    .ok (emptyAssumptionBase context.assumption_base.vocabulary)
  else
    let basis := ops.get_basis context.named_state.p variable_assignment
      attribute_interpretation formulae
    if ops.is_exhaustive context.named_state basis named_states then
      .ok (mkAssumptionBase formulae)
    else
      .error (.valueError "named states are not exahustive on basis of formulae.")

/-- The assumption base of the extended context of rules [C1] and [C3]
(inference_rules.py lines 276-281 and 383-388): the context's formulas
followed by the supplied ones, rebuilt as an AssumptionBase, or the empty
base over the context's vocabulary when both are empty. -/
def d2x_union (context : Context) (formulae : List Formula) : AssumptionBase :=
  let formulae_union := context.assumption_base.formulae ++ formulae
  if formulae_union.isEmpty then
    emptyAssumptionBase context.assumption_base.vocabulary
  else
    mkAssumptionBase formulae_union

/-- diagrammatic_to_diagrammatic, rule [C1] (inference_rules.py lines
245-290): exhaustiveness phase, then the proviso
`is_named_entailment(assumption_base, interpretation, *named_states)` on the
context's named state (raising when it fails), then entailment of the
inferred named state from the context extended with the union base. -/
def diagrammatic_to_diagrammatic (ops : SemanticOps) (context : Context)
    (inferred_named_state : NamedState) (named_states : List NamedState)
    (attribute_interpretation : Option Interp)
    (variable_assignment : VariableAssignment)
    (formulae : List Formula) : Except VividError Bool :=
  match d2x_base ops context named_states attribute_interpretation
      variable_assignment formulae with
  | .error e => .error e
  | .ok assumption_base =>
    if ops.is_named_entailment context.named_state assumption_base
        attribute_interpretation named_states then
      let extended_context : Context := ⟨d2x_union context formulae, context.named_state⟩
      .ok (ops.entails_named_state extended_context inferred_named_state
        attribute_interpretation)
    else
      .error (.valueError "[C1] proviso does not hold")

/-- diagrammatic_to_sentential, rule [C3] (inference_rules.py lines 352-395):
identical control flow to rule [C1] with a formula conclusion checked by
`entails_formula`. -/
def diagrammatic_to_sentential (ops : SemanticOps) (context : Context)
    (F : Formula) (named_states : List NamedState)
    (attribute_interpretation : Option Interp)
    (variable_assignment : VariableAssignment)
    (formulae : List Formula) : Except VividError Bool :=
  match d2x_base ops context named_states attribute_interpretation
      variable_assignment formulae with
  | .error e => .error e
  | .ok assumption_base =>
    if ops.is_named_entailment context.named_state assumption_base
        attribute_interpretation named_states then
      let extended_context : Context := ⟨d2x_union context formulae, context.named_state⟩
      .ok (ops.entails_formula extended_context F attribute_interpretation)
    else
      .error (.valueError "[C3] proviso does not hold")

/-! ## Vocabulary (src/vivid/Classes/Vocabulary.py) -/

/-- A Python string, modelled as its sequence of characters (the Vocabulary
code only compares, lowercases and sorts them). -/
abbrev PyStr := List Char

/-- Python's str.lower(), character by character. -/
def pyLower (s : PyStr) : PyStr := s.map Char.toLower

/-- A relation symbol: a name with a fixed arity (spec section 3); the
Vocabulary constructor only reads `_name`, and symbol equality is
structural. -/
structure RelationSymbol where
  name : PyStr
  arity : Nat
deriving DecidableEq

/-- The case-insensitive sort relation `key=lambda c: c.lower()` used by the
Vocabulary constructor and by add_constant / add_variable. -/
def lowLe (a b : PyStr) : Prop := pyLower a ≤ pyLower b

instance : DecidableRel lowLe := fun a b =>
  inferInstanceAs (Decidable (pyLower a ≤ pyLower b))

instance : IsTotal PyStr lowLe := ⟨fun a b => le_total (pyLower a) (pyLower b)⟩

instance : IsTrans PyStr lowLe := ⟨fun _ _ _ h h2 => le_trans h h2⟩

/-- The case-insensitive sort relation `key=lambda rs: rs._name.lower()` used
for the relation-symbol list. -/
def nameLowLe (a b : RelationSymbol) : Prop := pyLower a.name ≤ pyLower b.name

instance : DecidableRel nameLowLe := fun a b =>
  inferInstanceAs (Decidable (pyLower a.name ≤ pyLower b.name))

instance : IsTotal RelationSymbol nameLowLe :=
  ⟨fun a b => le_total (pyLower a.name) (pyLower b.name)⟩

instance : IsTrans RelationSymbol nameLowLe := ⟨fun _ _ _ h h2 => le_trans h h2⟩

/-- A canonical linear order on relation symbols (name, then arity), used to
model the fixed enumeration order of a Python set. -/
def rsLe (a b : RelationSymbol) : Prop :=
  a.name < b.name ∨ (a.name = b.name ∧ a.arity ≤ b.arity)

instance : DecidableRel rsLe := fun a b =>
  inferInstanceAs (Decidable (a.name < b.name ∨ (a.name = b.name ∧ a.arity ≤ b.arity)))

instance : IsTotal RelationSymbol rsLe := by
  constructor
  intro a b
  rcases lt_trichotomy a.name b.name with h | h | h
  · exact Or.inl (Or.inl h)
  · rcases le_total a.arity b.arity with h2 | h2
    · exact Or.inl (Or.inr ⟨h, h2⟩)
    · exact Or.inr (Or.inr ⟨h.symm, h2⟩)
  · exact Or.inr (Or.inl h)

instance : IsTrans RelationSymbol rsLe := by
  constructor
  intro a b c hab hbc
  rcases hab with hab | ⟨hab, hab2⟩
  · rcases hbc with hbc | ⟨hbc, _⟩
    · exact Or.inl (lt_trans hab hbc)
    · exact Or.inl (hbc ▸ hab)
  · rcases hbc with hbc | ⟨hbc, hbc2⟩
    · exact Or.inl (hab ▸ hbc)
    · exact Or.inr ⟨hab.trans hbc, le_trans hab2 hbc2⟩

instance : IsAntisymm RelationSymbol rsLe := by
  constructor
  intro a b hab hba
  rcases hab with hab | ⟨hab, hab2⟩
  · rcases hba with hba | ⟨hba, _⟩
    · exact absurd hba (lt_asymm hab)
    · exact absurd hab (hba ▸ lt_irrefl b.name)
  · rcases hba with hba | ⟨_, hba2⟩
    · exact absurd hba (hab ▸ lt_irrefl a.name)
    · cases a
      cases b
      simp only [RelationSymbol.mk.injEq]
      exact ⟨hab, le_antisymm hab2 hba2⟩

/-- Modelled from the spec: Python's `list(set(l))` for strings.  Within one
process, equal sets enumerate identically, so the enumeration is modelled as
the canonical duplicate-free listing of the set: deduplication followed by a
fixed linear order. -/
def pySetStr (l : List PyStr) : List PyStr :=
  List.insertionSort (· ≤ ·) l.dedup

/-- Modelled from the spec: Python's `list(set(l))` for relation symbols,
with the same canonical-enumeration modelling as `pySetStr`. -/
def pySetRS (l : List RelationSymbol) : List RelationSymbol :=
  List.insertionSort rsLe l.dedup

/-- The Vocabulary data: the three symbol lists `_C`, `_R`, `_V`. -/
structure Vocabulary where
  C : List PyStr
  R : List RelationSymbol
  V : List PyStr
deriving DecidableEq

/-- Vocabulary.__init__ (Vocabulary.py lines 18-61): after the element-type
checks (static here), raise ValueError when C and V share an element, then
when two relation symbols share a name; otherwise store each list
deduplicated via `set` and sorted case-insensitively. -/
def mkVocabulary (C : List PyStr) (R : List RelationSymbol) (V : List PyStr) :
    Except VividError Vocabulary :=
  if C.any (fun c => decide (c ∈ V)) then
    .error (.valueError "C and V parameters may not have a common element")
  else if (R.map RelationSymbol.name).dedup.length ≠ (R.map RelationSymbol.name).length then
    .error (.valueError "Duplicate RelationSymbol names not permitted")
  else
    .ok ⟨List.insertionSort lowLe (pySetStr C),
         List.insertionSort nameLowLe (pySetRS R),
         List.insertionSort lowLe (pySetStr V)⟩

/-- An item queried for membership in a Vocabulary: either a RelationSymbol
(which carries the `_is_RelationSymbol` marker) or any other object,
represented by the strings the symbol lists can actually contain. -/
inductive VocabItem where
  | rel (r : RelationSymbol)
  | str (s : PyStr)
deriving DecidableEq

/-- Vocabulary.__contains__ (Vocabulary.py lines 85-90): a RelationSymbol is
looked up in `_R`; for any other item the source line 90 is
`return self._C or item in self._V`, whose boolean value is "C is nonempty,
or else the item is in `_V`" - the membership test against `_C` is absent
from the source. -/
def Vocabulary.vocab_mem (v : Vocabulary) : VocabItem → Bool
  | .rel r => decide (r ∈ v.R)
  | .str s => !v.C.isEmpty || decide (s ∈ v.V)

/-- Vocabulary.add_constant (Vocabulary.py lines 92-102): when the symbol is
in neither `_C` nor `_V`, re-sort `_C` with the symbol appended; otherwise
raise ValueError. -/
def addConstant (v : Vocabulary) (constant : PyStr) : Except VividError Vocabulary :=
  if constant ∉ v.C ∧ constant ∉ v.V then
    .ok ⟨List.insertionSort lowLe (v.C ++ [constant]), v.R, v.V⟩
  else
    .error (.valueError "duplicate symbol cannot be added")

/-- Vocabulary.add_variable (Vocabulary.py lines 104-114): when the symbol is
in neither `_C` nor `_V`, re-sort `_V` with the symbol appended; otherwise
raise ValueError. -/
def addVariable (v : Vocabulary) (variable1 : PyStr) : Except VividError Vocabulary :=
  if variable1 ∉ v.C ∧ variable1 ∉ v.V then
    .ok ⟨v.C, v.R, List.insertionSort lowLe (v.V ++ [variable1])⟩
  else
    .error (.valueError "duplicate symbol cannot be added")

/-- Python set equality `set(a) == set(b)`: mutual membership. -/
def listSetEq {α : Type} [DecidableEq α] (a b : List α) : Bool :=
  a.all (fun x => decide (x ∈ b)) && b.all (fun x => decide (x ∈ a))

/-- Vocabulary.__eq__ (Vocabulary.py lines 63-73): set comparison on each of
the three symbol lists. -/
def vocabEq (v w : Vocabulary) : Bool :=
  listSetEq v.C w.C && listSetEq v.R w.R && listSetEq v.V w.V

/-- Vocabulary._key (Vocabulary.py lines 128-130): the tuple
`(tuple(_C), tuple(_R), tuple(_V))`; `__hash__` is `hash` of this key, so
equal keys give equal Python hashes. -/
def Vocabulary.key (v : Vocabulary) :
    List PyStr × List RelationSymbol × List PyStr :=
  (v.C, v.R, v.V)

/-! ## Concrete instances used to exercise the definitions on closed inputs -/

instance {ε α : Type} [DecidableEq ε] [DecidableEq α] : DecidableEq (Except ε α) :=
  fun a b =>
    match a, b with
    | .ok x, .ok y =>
      if h : x = y then .isTrue (by rw [h]) else .isFalse (by simpa using h)
    | .error x, .error y =>
      if h : x = y then .isTrue (by rw [h]) else .isFalse (by simpa using h)
    | .ok _, .error _ => .isFalse (by simp)
    | .error _, .ok _ => .isFalse (by simp)

/-- A constant assignment over vocabulary 0. -/
def ca0 : ConstantAssignment := ⟨0, 0⟩

/-- A named state used in closed examples. -/
def ns0 : NamedState := ⟨ca0, 0, 0⟩

/-- A second named state, distinct from `ns0`. -/
def ns1 : NamedState := ⟨ca0, 0, 1⟩

/-- A formula that the concrete evaluator maps to true. -/
def fml1 : Formula := ⟨0, 1⟩

/-- A formula that the concrete evaluator maps to false. -/
def fml2 : Formula := ⟨0, 2⟩

/-- A formula that the concrete evaluator maps to the indeterminate value. -/
def fml3 : Formula := ⟨0, 3⟩

/-- A nonempty assumption base holding `fml2`. -/
def ab0 : AssumptionBase := ⟨0, [fml2]⟩

/-- A context with a nonempty assumption base. -/
def ctx0 : Context := ⟨ab0, ns0⟩

/-- A concrete instance of the semantic operations: extension always holds,
named-state entailment never does, a named entailment holds exactly of
nonempty assumption bases, every case split is exhaustive, `fml1` evaluates
true, `fml3` indeterminate and everything else false, and there is one world
with one variable assignment, satisfying every context. -/
def opsA : SemanticOps where
  le := fun _ _ => true
  entails_named_state := fun _ _ _ => false
  entails_formula := fun _ _ _ => true
  is_named_entailment := fun _ ab _ _ => !ab.formulae.isEmpty
  is_exhaustive := fun _ _ _ => true
  get_basis := fun _ _ _ _ => 0
  assign_truth_value := fun f _ _ _ =>
    if f.formula_id = 1 then .tv_true
    else if f.formula_id = 3 then .unknown
    else .tv_false
  get_worlds := fun _ => [0]
  generate_variable_assignments := fun _ => [0]
  satisfies_context := fun _ _ _ _ => true
  dummy_va := fun _ _ => 0

/-! ## Claims about the inference-rule layer -/

/-- C8: diagram_reiteration returns the context's own named state
unchanged; as a pure projection of an immutable value it modifies neither
the context nor any other state. -/
theorem diagram_reiteration_id (context : Context) :
    diagram_reiteration context = context.named_state := rfl

/-- C7: diagrammatic_absurdity returns exactly the boolean that
`context.entails_named_state(named_state, attribute_interpretation)` returns
on the same arguments, and raises a TypeError when an argument is not of
the expected kind. -/
theorem diagrammatic_absurdity_eq_entails (ops : SemanticOps)
    (o1 o2 : PyObj) (i : Option Interp) :
    (∀ c n, o1 = PyObj.context c → o2 = PyObj.namedState n →
      diagrammatic_absurdity ops o1 o2 i = .ok (ops.entails_named_state c n i)) ∧
    (hasattr_is_Context o1 = false →
      diagrammatic_absurdity ops o1 o2 i =
        .error (.typeError "context parameter must be a Context object.")) ∧
    (hasattr_is_Context o1 = true → hasattr_is_NamedState o2 = false →
      diagrammatic_absurdity ops o1 o2 i =
        .error (.typeError "named_state parameter must be a NamedState object.")) := by
  refine ⟨?_, ?_, ?_⟩
  · rintro c n rfl rfl
    rfl
  · intro h
    cases o1 with
    | context c => simp [hasattr_is_Context] at h
    | namedState n => rfl
    | other t => rfl
  · intro h1 h2
    cases o1 with
    | context c =>
      cases o2 with
      | context c2 => rfl
      | namedState n => simp [hasattr_is_NamedState] at h2
      | other t => rfl
    | namedState n => simp [hasattr_is_Context] at h1
    | other t => simp [hasattr_is_Context] at h1

/-- Closed instance of C7 at concrete arguments: the result coincides with
the (false) entailment verdict of the concrete operations. -/
theorem diagrammatic_absurdity_eq_entails_witness :
    diagrammatic_absurdity opsA (PyObj.context ctx0) (PyObj.namedState ns0) none =
      .ok false :=
  (diagrammatic_absurdity_eq_entails opsA (PyObj.context ctx0)
    (PyObj.namedState ns0) none).1 ctx0 ns0 rfl rfl

/-- C6: thinning with no assumption base returns the plain extension test
`named_state <= context._named_state`; with an assumption base it returns
`is_named_entailment` of that base on the context's named state with the
given named state as the single branch; arguments of the wrong kind raise a
TypeError. -/
theorem thinning_spec (ops : SemanticOps) (o1 o2 : PyObj)
    (ab : Option AssumptionBase) (i : Option Interp) :
    (∀ c n, o1 = PyObj.context c → o2 = PyObj.namedState n →
      thinning ops o1 o2 none i = .ok (ops.le n c.named_state)) ∧
    (∀ c n b, o1 = PyObj.context c → o2 = PyObj.namedState n →
      thinning ops o1 o2 (some b) i =
        .ok (ops.is_named_entailment c.named_state b i [n])) ∧
    (hasattr_is_Context o1 = false →
      thinning ops o1 o2 ab i =
        .error (.typeError "context parameter must be a Context object.")) ∧
    (hasattr_is_Context o1 = true → hasattr_is_NamedState o2 = false →
      thinning ops o1 o2 ab i =
        .error (.typeError "named_state parameter must be a NamedState object.")) := by
  refine ⟨?_, ?_, ?_, ?_⟩
  · rintro c n rfl rfl
    rfl
  · rintro c n b rfl rfl
    rfl
  · intro h
    cases o1 with
    | context c => simp [hasattr_is_Context] at h
    | namedState n => rfl
    | other t => rfl
  · intro h1 h2
    cases o1 with
    | context c =>
      cases o2 with
      | context c2 => rfl
      | namedState n => simp [hasattr_is_NamedState] at h2
      | other t => rfl
    | namedState n => simp [hasattr_is_Context] at h1
    | other t => simp [hasattr_is_Context] at h1

/-- Closed instance of C6 at concrete arguments, exercising both the
plain-extension branch and the named-entailment branch. -/
theorem thinning_spec_witness :
    thinning opsA (PyObj.context ctx0) (PyObj.namedState ns0) none none = .ok true ∧
    thinning opsA (PyObj.context ctx0) (PyObj.namedState ns0) (some ab0) none =
      .ok true :=
  ⟨(thinning_spec opsA (PyObj.context ctx0) (PyObj.namedState ns0) none none).1
      ctx0 ns0 rfl rfl,
   (thinning_spec opsA (PyObj.context ctx0) (PyObj.namedState ns0) (some ab0)
      none).2.1 ctx0 ns0 ab0 rfl rfl⟩

/-- C1: at this input the entailment proviso fails while the plain extension
holds, yet widening returns True.  The source evaluates
`context.entails_named_state(named_state, attribute_interpretation)` only
for its side effect (inference_rules.py line 108) and the returned boolean
(line 110) is the extension test alone, contradicting both the claim that
the two conditions must jointly hold and the function's own docstring, which
documents the return value as the entailment verdict. -/
theorem widening_ignores_entailment :
    widening opsA (PyObj.context ctx0) (PyObj.namedState ns0) (some 0) = .ok true ∧
    opsA.entails_named_state ctx0 ns0 (some 0) = false :=
  ⟨rfl, rfl⟩

/-- C4 counterexample: F1 evaluates to true and G evaluates to the
indeterminate value, so G does not hold while F1 holds and the claim demands
a False result; yet sentential_to_sentential returns True, because the
source tests G with plain Python truthiness (inference_rules.py line 236)
and the indeterminate marker is truthy. -/
theorem s2s_indeterminate_g :
    sentential_to_sentential opsA ctx0 fml1 fml2 fml3 none none = .ok true ∧
    opsA.assign_truth_value fml1 none ctx0.named_state (resolve_va opsA ctx0 none) =
      TruthValue.tv_true ∧
    opsA.assign_truth_value fml3 none ctx0.named_state (resolve_va opsA ctx0 none) ≠
      TruthValue.tv_true :=
  ⟨rfl, rfl, by decide⟩

/-- C4 (amended): sentential_to_sentential raises the disjunction ValueError
iff neither F1 nor F2 evaluates to true; when at least one does, it returns
true iff G does not evaluate to false (an indeterminate G counts as
holding); as a pure function of its arguments it mutates nothing. -/
theorem s2s_spec (ops : SemanticOps) (context : Context) (F1 F2 G : Formula)
    (i : Option Interp) (va : Option VariableAssignment) :
    (sentential_to_sentential ops context F1 F2 G i va =
        .error (.valueError "disjunction F1 OR F2 does not hold") ↔
      (ops.assign_truth_value F1 i context.named_state (resolve_va ops context va) ≠
          TruthValue.tv_true ∧
        ops.assign_truth_value F2 i context.named_state (resolve_va ops context va) ≠
          TruthValue.tv_true)) ∧
    ((ops.assign_truth_value F1 i context.named_state (resolve_va ops context va) =
          TruthValue.tv_true ∨
        ops.assign_truth_value F2 i context.named_state (resolve_va ops context va) =
          TruthValue.tv_true) →
      sentential_to_sentential ops context F1 F2 G i va =
        .ok (ops.assign_truth_value G i context.named_state
          (resolve_va ops context va)).truthy) := by
  cases h1 : ops.assign_truth_value F1 i context.named_state (resolve_va ops context va) <;>
    cases h2 : ops.assign_truth_value F2 i context.named_state (resolve_va ops context va) <;>
    cases hg : ops.assign_truth_value G i context.named_state (resolve_va ops context va) <;>
    simp_all [sentential_to_sentential, TruthValue.truthy]

/-- Closed instance of the amended C4: with F1 evaluating true and G := F1,
the call returns True. -/
theorem s2s_spec_witness :
    sentential_to_sentential opsA ctx0 fml1 fml2 fml1 none none = .ok true :=
  (s2s_spec opsA ctx0 fml1 fml2 fml1 none none).2 (Or.inl rfl)

/-- The inner loop of sentential_to_diagrammatic returns true iff the world
satisfies both extended contexts under every generated variable
assignment. -/
theorem s2d_inner_eq_forall (ops : SemanticOps) (w : World) (c1 c2 : Context)
    (i : Option Interp) (l : List VariableAssignment) :
    s2d_inner ops w c1 c2 i l = true ↔
      ∀ X ∈ l, ops.satisfies_context w c1 X i = true ∧
        ops.satisfies_context w c2 X i = true := by
  induction l with
  | nil => simp [s2d_inner]
  | cons X rest ih =>
    simp only [s2d_inner, List.forall_mem_cons]
    by_cases h : ops.satisfies_context w c1 X i = true ∧
        ops.satisfies_context w c2 X i = true
    · simp [h, ih]
    · simp [h]

/-- The outer loop of sentential_to_diagrammatic returns true iff every
listed world passes the inner loop over its generated variable
assignments. -/
theorem s2d_outer_eq_forall (ops : SemanticOps) (c1 c2 : Context)
    (i : Option Interp) (l : List World) :
    s2d_outer ops c1 c2 i l = true ↔
      ∀ w ∈ l, ∀ X ∈ ops.generate_variable_assignments w,
        ops.satisfies_context w c1 X i = true ∧
        ops.satisfies_context w c2 X i = true := by
  induction l with
  | nil => simp [s2d_outer]
  | cons w rest ih =>
    simp only [s2d_outer, List.forall_mem_cons]
    rw [← s2d_inner_eq_forall ops w c1 c2 i (ops.generate_variable_assignments w)]
    by_cases h : s2d_inner ops w c1 c2 i (ops.generate_variable_assignments w) = true
    · simp [h, ih]
    · simp [h]

/-- C5: sentential_to_diagrammatic raises the disjunction ValueError iff
neither F1 nor F2 evaluates to true; when at least one does, it returns true
iff every world of the target named state, under every variable assignment
generated over that world, satisfies both the context extended with F1 and
the context extended with F2. -/
theorem s2d_spec (ops : SemanticOps) (context : Context) (F1 F2 : Formula)
    (named_state : NamedState) (i : Option Interp)
    (va : Option VariableAssignment) :
    (sentential_to_diagrammatic ops context F1 F2 named_state i va =
        .error (.valueError "disjunction F1 OR F2 does not hold") ↔
      (ops.assign_truth_value F1 i context.named_state (resolve_va ops context va) ≠
          TruthValue.tv_true ∧
        ops.assign_truth_value F2 i context.named_state (resolve_va ops context va) ≠
          TruthValue.tv_true)) ∧
    ((ops.assign_truth_value F1 i context.named_state (resolve_va ops context va) =
          TruthValue.tv_true ∨
        ops.assign_truth_value F2 i context.named_state (resolve_va ops context va) =
          TruthValue.tv_true) →
      (sentential_to_diagrammatic ops context F1 F2 named_state i va = .ok true ↔
        ∀ w ∈ ops.get_worlds named_state,
          ∀ X ∈ ops.generate_variable_assignments w,
            ops.satisfies_context w
              ⟨if F1 ∈ context.assumption_base.formulae then context.assumption_base
                else formula_add F1 context.assumption_base,
               context.named_state⟩ X i = true ∧
            ops.satisfies_context w
              ⟨if F2 ∈ context.assumption_base.formulae then context.assumption_base
                else formula_add F2 context.assumption_base,
               context.named_state⟩ X i = true)) := by
  constructor
  · cases h1 : ops.assign_truth_value F1 i context.named_state (resolve_va ops context va) <;>
      cases h2 : ops.assign_truth_value F2 i context.named_state (resolve_va ops context va) <;>
      simp_all [sentential_to_diagrammatic]
  · intro hor
    have hgate : ¬(ops.assign_truth_value F1 i context.named_state
          (resolve_va ops context va) ≠ TruthValue.tv_true ∧
        ops.assign_truth_value F2 i context.named_state
          (resolve_va ops context va) ≠ TruthValue.tv_true) := by
      rcases hor with h | h <;> simp [h]
    simp only [sentential_to_diagrammatic]
    rw [if_neg hgate]
    simp only [Except.ok.injEq]
    exact s2d_outer_eq_forall ops _ _ i (ops.get_worlds named_state)

/-- Closed instance of C5: a single world with a single assignment
satisfying every context makes the rule return True. -/
theorem s2d_spec_witness :
    sentential_to_diagrammatic opsA ctx0 fml1 fml2 ns0 none none = .ok true :=
  ((s2d_spec opsA ctx0 fml1 fml2 ns0 none none).2 (Or.inl rfl)).mpr (by decide)

/-- C3 counterexample: with zero formulae and a context whose own assumption
base is nonempty, diagrammatic_to_diagrammatic checks the proviso against
the empty assumption base built over the context's vocabulary
(inference_rules.py line 268) and raises, even though is_named_entailment of
the context's own assumption base holds - against the claim, which says that
with zero formulae the proviso is checked against the context's own
assumption base. -/
theorem d2d_zero_formulae_empty_base :
    diagrammatic_to_diagrammatic opsA ctx0 ns0 [ns0] none 0 [] =
      .error (.valueError "[C1] proviso does not hold") ∧
    opsA.is_named_entailment ctx0.named_state ctx0.assumption_base none [ns0] =
      true :=
  ⟨rfl, rfl⟩

/-- C3 (amended): for both rules, with formulas supplied the call raises the
exhaustiveness ValueError when the supplied named states are not exhaustive
on the basis computed from the formulas; past that check the proviso is
is_named_entailment of the branch named states against the assumption base
built from the formulas - with zero formulas, against the empty assumption
base over the context's vocabulary - and the call raises the proviso
ValueError when it fails; otherwise it returns true iff the context extended
with the union of its existing assumption base and the supplied formulas
entails the conclusion (a named state for [C1], a formula for [C3]). -/
theorem d2x_spec (ops : SemanticOps) (context : Context)
    (inferred : NamedState) (F : Formula) (named_states : List NamedState)
    (i : Option Interp) (va : VariableAssignment) (formulae : List Formula) :
    (formulae.isEmpty = false →
      ops.is_exhaustive context.named_state
          (ops.get_basis context.named_state.p va i formulae) named_states = false →
      diagrammatic_to_diagrammatic ops context inferred named_states i va formulae =
          .error (.valueError "named states are not exahustive on basis of formulae.") ∧
      diagrammatic_to_sentential ops context F named_states i va formulae =
          .error (.valueError "named states are not exahustive on basis of formulae.")) ∧
    ((formulae.isEmpty = true ∨
        ops.is_exhaustive context.named_state
          (ops.get_basis context.named_state.p va i formulae) named_states = true) →
      ops.is_named_entailment context.named_state
          (if formulae.isEmpty then
            emptyAssumptionBase context.assumption_base.vocabulary
          else mkAssumptionBase formulae) i named_states = false →
      diagrammatic_to_diagrammatic ops context inferred named_states i va formulae =
          .error (.valueError "[C1] proviso does not hold") ∧
      diagrammatic_to_sentential ops context F named_states i va formulae =
          .error (.valueError "[C3] proviso does not hold")) ∧
    ((formulae.isEmpty = true ∨
        ops.is_exhaustive context.named_state
          (ops.get_basis context.named_state.p va i formulae) named_states = true) →
      ops.is_named_entailment context.named_state
          (if formulae.isEmpty then
            emptyAssumptionBase context.assumption_base.vocabulary
          else mkAssumptionBase formulae) i named_states = true →
      diagrammatic_to_diagrammatic ops context inferred named_states i va formulae =
          .ok (ops.entails_named_state
            ⟨d2x_union context formulae, context.named_state⟩ inferred i) ∧
      diagrammatic_to_sentential ops context F named_states i va formulae =
          .ok (ops.entails_formula
            ⟨d2x_union context formulae, context.named_state⟩ F i)) := by
  refine ⟨?_, ?_, ?_⟩
  · intro hne hexh
    constructor
    · simp [diagrammatic_to_diagrammatic, d2x_base, hne, hexh]
    · simp [diagrammatic_to_sentential, d2x_base, hne, hexh]
  · intro hx hp
    by_cases h : formulae.isEmpty = true
    · rw [if_pos h] at hp
      constructor
      · simp [diagrammatic_to_diagrammatic, d2x_base, h, hp]
      · simp [diagrammatic_to_sentential, d2x_base, h, hp]
    · rw [if_neg h] at hp
      have hexh : ops.is_exhaustive context.named_state
          (ops.get_basis context.named_state.p va i formulae) named_states = true := by
        rcases hx with hx | hx
        · exact absurd hx h
        · exact hx
      constructor
      · simp [diagrammatic_to_diagrammatic, d2x_base, h, hexh, hp]
      · simp [diagrammatic_to_sentential, d2x_base, h, hexh, hp]
  · intro hx hp
    by_cases h : formulae.isEmpty = true
    · rw [if_pos h] at hp
      constructor
      · simp [diagrammatic_to_diagrammatic, d2x_base, h, hp]
      · simp [diagrammatic_to_sentential, d2x_base, h, hp]
    · rw [if_neg h] at hp
      have hexh : ops.is_exhaustive context.named_state
          (ops.get_basis context.named_state.p va i formulae) named_states = true := by
        rcases hx with hx | hx
        · exact absurd hx h
        · exact hx
      constructor
      · simp [diagrammatic_to_diagrammatic, d2x_base, h, hexh, hp]
      · simp [diagrammatic_to_sentential, d2x_base, h, hexh, hp]

/-- Closed instance of the amended C3, on the success path with one
case-splitting formula. -/
theorem d2x_spec_witness :
    diagrammatic_to_diagrammatic opsA ctx0 ns0 [ns0] none 0 [fml2] = .ok false ∧
    diagrammatic_to_sentential opsA ctx0 fml3 [ns0] none 0 [fml2] = .ok true :=
  (d2x_spec opsA ctx0 ns0 fml3 [ns0] none 0 [fml2]).2.2 (Or.inr rfl) (by decide)

/-! ## Claims about the Vocabulary container -/

/-- The Vocabulary built from C = ["a"], R = [], V = []. -/
def vocab2 : Vocabulary := ⟨[['a']], [], []⟩

/-- C2: the Vocabulary constructed from C = ["a"] reports the string "z" as
a member even though "z" is neither one of its constants nor one of its
variables: line 90 of the source returns `self._C or item in self._V`, so
every non-RelationSymbol item is reported present whenever the constant list
is nonempty, against the documented membership semantics. -/
theorem vocab_mem_bug :
    mkVocabulary [['a']] [] [] = .ok vocab2 ∧
    vocab2.vocab_mem (.str ['z']) = true ∧
    ['z'] ∉ vocab2.C ∧ ['z'] ∉ vocab2.V :=
  ⟨by decide, by decide, by decide, by decide⟩

/-- The invariant claimed for the constant and variable lists: each
duplicate-free, sorted case-insensitively, and mutually disjoint. -/
def VocabInv (v : Vocabulary) : Prop :=
  v.C.Nodup ∧ v.V.Nodup ∧ List.Sorted lowLe v.C ∧ List.Sorted lowLe v.V ∧
    ∀ x ∈ v.C, x ∉ v.V

/-- A successful construction stores the canonically enumerated,
case-insensitively sorted symbol lists. -/
theorem mkVocabulary_ok_eq (C : List PyStr) (R : List RelationSymbol)
    (V : List PyStr) (v : Vocabulary) (h : mkVocabulary C R V = .ok v) :
    v = ⟨List.insertionSort lowLe (pySetStr C),
         List.insertionSort nameLowLe (pySetRS R),
         List.insertionSort lowLe (pySetStr V)⟩ := by
  unfold mkVocabulary at h
  by_cases h1 : C.any (fun c => decide (c ∈ V)) = true
  · rw [if_pos h1] at h
    exact absurd h (by simp)
  · rw [if_neg h1] at h
    by_cases h2 : (R.map RelationSymbol.name).dedup.length ≠
        (R.map RelationSymbol.name).length
    · rw [if_pos h2] at h
      exact absurd h (by simp)
    · rw [if_neg h2] at h
      simp only [Except.ok.injEq] at h
      exact h.symm

/-- A successful construction implies the constructor's disjointness guard
passed. -/
theorem mkVocabulary_ok_disjoint (C : List PyStr) (R : List RelationSymbol)
    (V : List PyStr) (v : Vocabulary) (h : mkVocabulary C R V = .ok v) :
    ∀ x ∈ C, x ∉ V := by
  intro x hx hv
  unfold mkVocabulary at h
  have h1 : C.any (fun c => decide (c ∈ V)) = true :=
    List.any_eq_true.mpr ⟨x, hx, by simp [hv]⟩
  rw [if_pos h1] at h
  exact absurd h (by simp)

/-- Sorting preserves duplicate-freeness. -/
theorem nodup_insertionSort {α : Type} (r : α → α → Prop) [DecidableRel r]
    (l : List α) (h : l.Nodup) : (List.insertionSort r l).Nodup :=
  (List.perm_insertionSort r l).nodup_iff.mpr h

/-- Membership in a sorted canonical set enumeration is membership in the
original list. -/
theorem mem_sort_pySetStr (l : List PyStr) (x : PyStr) :
    x ∈ List.insertionSort lowLe (pySetStr l) ↔ x ∈ l := by
  rw [List.mem_insertionSort]
  unfold pySetStr
  rw [List.mem_insertionSort, List.mem_dedup]

/-- The constructor establishes the claimed invariant. -/
theorem mkVocabulary_inv (C : List PyStr) (R : List RelationSymbol)
    (V : List PyStr) (v : Vocabulary) (h : mkVocabulary C R V = .ok v) :
    VocabInv v := by
  have hdj := mkVocabulary_ok_disjoint C R V v h
  rw [mkVocabulary_ok_eq C R V v h]
  refine ⟨nodup_insertionSort _ _ ?_, nodup_insertionSort _ _ ?_,
    List.sorted_insertionSort _ _, List.sorted_insertionSort _ _, ?_⟩
  · exact nodup_insertionSort _ _ (List.nodup_dedup C)
  · exact nodup_insertionSort _ _ (List.nodup_dedup V)
  · intro x hx hv
    exact hdj x ((mem_sort_pySetStr C x).mp hx) ((mem_sort_pySetStr V x).mp hv)

/-- add_constant preserves the claimed invariant. -/
theorem addConstant_inv (v : Vocabulary) (c : PyStr) (v' : Vocabulary)
    (hv : VocabInv v) (h : addConstant v c = .ok v') : VocabInv v' := by
  unfold addConstant at h
  by_cases hc : c ∉ v.C ∧ c ∉ v.V
  · rw [if_pos hc] at h
    simp only [Except.ok.injEq] at h
    subst h
    obtain ⟨nC, nV, _, sV, dj⟩ := hv
    refine ⟨?_, nV, List.sorted_insertionSort _ _, sV, ?_⟩
    · refine nodup_insertionSort _ _ ?_
      rw [List.nodup_append]
      exact ⟨nC, List.nodup_singleton c, fun a ha hac => hc.1 (List.mem_singleton.mp hac ▸ ha)⟩
    · intro x hx
      have hx' : x ∈ v.C ++ [c] := (List.mem_insertionSort lowLe).mp hx
      rcases List.mem_append.mp hx' with h' | h'
      · exact dj x h'
      · rw [List.mem_singleton.mp h']
        exact hc.2
  · rw [if_neg hc] at h
    exact absurd h (by simp)

/-- add_variable preserves the claimed invariant. -/
theorem addVariable_inv (v : Vocabulary) (c : PyStr) (v' : Vocabulary)
    (hv : VocabInv v) (h : addVariable v c = .ok v') : VocabInv v' := by
  unfold addVariable at h
  by_cases hc : c ∉ v.C ∧ c ∉ v.V
  · rw [if_pos hc] at h
    simp only [Except.ok.injEq] at h
    subst h
    obtain ⟨nC, nV, sC, _, dj⟩ := hv
    refine ⟨nC, ?_, sC, List.sorted_insertionSort _ _, ?_⟩
    · refine nodup_insertionSort _ _ ?_
      rw [List.nodup_append]
      exact ⟨nV, List.nodup_singleton c, fun a ha hac => hc.2 (List.mem_singleton.mp hac ▸ ha)⟩
    · intro x hx hmem
      have hx' : x ∈ v.V ++ [c] := (List.mem_insertionSort lowLe).mp hmem
      rcases List.mem_append.mp hx' with h' | h'
      · exact dj x hx h'
      · rw [List.mem_singleton.mp h'] at hx
        exact hc.1 hx
  · rw [if_neg hc] at h
    exact absurd h (by simp)

/-- add_constant raises exactly when the symbol is already a constant or a
variable (and, being pure, leaves the original Vocabulary untouched). -/
theorem addConstant_error_iff (v : Vocabulary) (c : PyStr) :
    addConstant v c = .error (.valueError "duplicate symbol cannot be added") ↔
      (c ∈ v.C ∨ c ∈ v.V) := by
  by_cases hc : c ∈ v.C ∨ c ∈ v.V
  · have hn : ¬(c ∉ v.C ∧ c ∉ v.V) := by tauto
    unfold addConstant
    rw [if_neg hn]
    simp [hc]
  · have hp : c ∉ v.C ∧ c ∉ v.V := by tauto
    unfold addConstant
    rw [if_pos hp]
    simp [hc]

/-- add_variable raises exactly when the symbol is already a constant or a
variable. -/
theorem addVariable_error_iff (v : Vocabulary) (c : PyStr) :
    addVariable v c = .error (.valueError "duplicate symbol cannot be added") ↔
      (c ∈ v.C ∨ c ∈ v.V) := by
  by_cases hc : c ∈ v.C ∨ c ∈ v.V
  · have hn : ¬(c ∉ v.C ∧ c ∉ v.V) := by tauto
    unfold addVariable
    rw [if_neg hn]
    simp [hc]
  · have hp : c ∉ v.C ∧ c ∉ v.V := by tauto
    unfold addVariable
    rw [if_pos hp]
    simp [hc]

/-- C9: after construction and after every successful add_constant or
add_variable call the constant and variable lists are each duplicate-free,
sorted case-insensitively, and mutually disjoint; the add operations raise
exactly when the symbol is already a constant or a variable, and as pure
functions they leave the original Vocabulary unchanged in that case. -/
theorem vocabulary_invariants :
    (∀ C R V v, mkVocabulary C R V = .ok v → VocabInv v) ∧
    (∀ v c v', VocabInv v → addConstant v c = .ok v' → VocabInv v') ∧
    (∀ v c v', VocabInv v → addVariable v c = .ok v' → VocabInv v') ∧
    (∀ v c, addConstant v c =
        .error (.valueError "duplicate symbol cannot be added") ↔
      (c ∈ v.C ∨ c ∈ v.V)) ∧
    (∀ v c, addVariable v c =
        .error (.valueError "duplicate symbol cannot be added") ↔
      (c ∈ v.C ∨ c ∈ v.V)) :=
  ⟨mkVocabulary_inv, addConstant_inv, addVariable_inv,
   addConstant_error_iff, addVariable_error_iff⟩

/-- The Vocabulary built from C = ["b", "a"], R = [], V = ["x"]. -/
def vocab9 : Vocabulary := ⟨[['a'], ['b']], [], [['x']]⟩

/-- Closed instance of C9: the Vocabulary constructed from ["b", "a"], [],
["x"] satisfies the invariant. -/
theorem vocabulary_invariants_witness : VocabInv vocab9 :=
  vocabulary_invariants.1 [['b'], ['a']] [] [['x']] vocab9 (by decide)

/-- Set-equal string lists have equal canonical enumerations. -/
theorem pySetStr_eq_of_mem (l l' : List PyStr) (h : ∀ x, x ∈ l ↔ x ∈ l') :
    pySetStr l = pySetStr l' := by
  have hd : List.Perm l.dedup l'.dedup :=
    List.perm_of_nodup_nodup_toFinset_eq (List.nodup_dedup l) (List.nodup_dedup l')
      (Finset.ext fun a => by simp [List.mem_toFinset, List.mem_dedup, h a])
  exact List.eq_of_perm_of_sorted
    ((List.perm_insertionSort _ _).trans (hd.trans (List.perm_insertionSort _ _).symm))
    (List.sorted_insertionSort _ _) (List.sorted_insertionSort _ _)

/-- Set-equal relation-symbol lists have equal canonical enumerations. -/
theorem pySetRS_eq_of_mem (l l' : List RelationSymbol) (h : ∀ x, x ∈ l ↔ x ∈ l') :
    pySetRS l = pySetRS l' := by
  have hd : List.Perm l.dedup l'.dedup :=
    List.perm_of_nodup_nodup_toFinset_eq (List.nodup_dedup l) (List.nodup_dedup l')
      (Finset.ext fun a => by simp [List.mem_toFinset, List.mem_dedup, h a])
  exact List.eq_of_perm_of_sorted
    ((List.perm_insertionSort _ _).trans (hd.trans (List.perm_insertionSort _ _).symm))
    (List.sorted_insertionSort _ _) (List.sorted_insertionSort _ _)

/-- Set comparison of a list with itself succeeds. -/
theorem listSetEq_self {α : Type} [DecidableEq α] (l : List α) :
    listSetEq l l = true := by
  simp [listSetEq, List.all_eq_true]

/-- C10: input triples that are equal as sets componentwise (permutations
and/or duplications of each other) yield, whenever both constructions
succeed, Vocabularies that compare equal under the set-based __eq__ and have
equal `_key` tuples, hence equal Python hash values. -/
theorem vocabulary_set_based_eq (C C' : List PyStr) (R R' : List RelationSymbol)
    (V V' : List PyStr)
    (hC : ∀ x, x ∈ C ↔ x ∈ C') (hR : ∀ x, x ∈ R ↔ x ∈ R')
    (hV : ∀ x, x ∈ V ↔ x ∈ V') (v v' : Vocabulary)
    (h : mkVocabulary C R V = .ok v) (h' : mkVocabulary C' R' V' = .ok v') :
    vocabEq v v' = true ∧ v.key = v'.key := by
  have e := mkVocabulary_ok_eq C R V v h
  have e' := mkVocabulary_ok_eq C' R' V' v' h'
  have hvv : v = v' := by
    rw [e, e', pySetStr_eq_of_mem C C' hC, pySetRS_eq_of_mem R R' hR,
      pySetStr_eq_of_mem V V' hV]
  subst hvv
  exact ⟨by simp [vocabEq, listSetEq_self], rfl⟩

/-- Closed instance of C10: ["a", "b"] and ["b", "a", "a"] (and ["x"] and
["x", "x"]) are set-equal inputs; the resulting Vocabularies compare equal
and share their hash key. -/
theorem vocabulary_set_based_eq_witness :
    vocabEq vocab9 vocab9 = true ∧ vocab9.key = vocab9.key :=
  vocabulary_set_based_eq [['a'], ['b']] [['b'], ['a'], ['a']] [] [] [['x']]
    [['x'], ['x']]
    (fun x => by simp [List.mem_cons]; tauto)
    (fun x => Iff.rfl)
    (fun x => by simp [List.mem_cons])
    vocab9 vocab9 (by decide) (by decide)

end Vivid
